import Mathlib

/-!
Shallow embedding of `content-archiver` (src/src/main.rs), a Rocket service
that fetches a remote URL and relays it into an S3-compatible store.

External library calls (reqwest GET, rusoto put_object, chrono Utc::now)
are modelled as oracle inputs collected in a `World`; the handler's own
control flow and data construction are translated line by line from the
source.  `url::Url` is modelled for the fragment exercised by the handler:
a parsed absolute URL with a scheme, an authority and a path, joined with
an absolute-path reference (RFC 3986 section 5.3: the reference replaces
the base path); inputs are restricted to characters that need no percent
encoding so the model coincides with the library on that fragment.
-/

namespace ContentArchiver

/-- Model of `url::Url` restricted to what the handler touches: scheme,
authority (host and optional port, already serialized), path (starts with
`/` whenever `cannotBeABase` is false).  Query and fragment are absent in
the configurations the service uses and are not modelled. -/
structure Url where
  scheme : String
  authority : String
  path : String
  cannotBeABase : Bool
  deriving DecidableEq, Repr

/-- Serialization of a (not cannot-be-a-base) URL, as `Display` prints it:
`scheme://authority/path`. -/
def Url.render (u : Url) : String :=
  u.scheme ++ "://" ++ u.authority ++ u.path

/-- A string usable verbatim as a path piece: nonempty, only alphanumerics,
`-` and `_` (no dots, slashes or characters that `Url::join` would percent
encode or normalize).  The join model below is faithful on this fragment. -/
def plainKey (s : String) : Bool :=
  s ≠ "" && s.data.all (fun c => c.isAlphanum || c == '-' || c == '_')

/-- Model of `url::Url::join` applied to an absolute-path reference
(`/{bucket}/{suffix}` in the handler): per RFC 3986 the base keeps its
scheme and authority and the reference replaces the whole path.  `join`
fails when the base cannot be a base (e.g. `mailto:` URLs).  The model
splices the path verbatim, omitting the url crate's percent-encoding and
dot-segment removal: it agrees with the library character-for-character
only when the path pieces are `plainKey`, so any theorem about the
rendered path carries `plainKey` hypotheses; success-versus-failure
(which depends only on the base) is faithful for all inputs. -/
def Url.joinAbsPath (base : Url) (p : String) : Option Url :=
  if base.cannotBeABase then none
  else some { base with path := p }

/-- `struct ArchiveRequest` (main.rs lines 30-35). -/
structure ArchiveRequest where
  source : String
  suffix : String
  public : Bool
  deriving DecidableEq, Repr

/-- `struct ArchiveResult` (main.rs lines 37-40). -/
structure ArchiveResult where
  location : String
  deriving DecidableEq, Repr

/-- `enum ArchiveError` (main.rs lines 84-89). -/
inductive ArchiveError where
  | ContentFetchFailed
  | ContentUploadFailed
  | InvalidConfiguration
  deriving DecidableEq, Repr

/-- Serde name of each `ArchiveError` variant. -/
def ArchiveError.render : ArchiveError → String
  | .ContentFetchFailed => "ContentFetchFailed"
  | .ContentUploadFailed => "ContentUploadFailed"
  | .InvalidConfiguration => "InvalidConfiguration"

/-- JSON body of `ErrorInfo` as serde serializes it (main.rs lines 91-94):
`{"error":"<kind>"}`. -/
def errorInfoJson (e : ArchiveError) : String :=
  "\x7b\"error\":\"" ++ e.render ++ "\"\x7d"

/-- JSON body of a successful `ArchiveResult`: `{"location":"<url>"}`. -/
def archiveResultJson (r : ArchiveResult) : String :=
  "\x7b\"location\":\"" ++ r.location ++ "\"\x7d"

/-- `struct CommonState` (main.rs lines 154-159); the `S3Client` handle is
an external collaborator and lives in the `World` oracle instead. -/
structure CommonState where
  bucketName : String
  bearerToken : String
  publicUrl : Url
  deriving DecidableEq, Repr

/-- `token.strip_prefix("Bearer ")` (main.rs line 52): when the token
starts with the 7 ASCII characters `Bearer `, the remainder after them;
otherwise nothing.  The check is done on the character list so it
computes in the kernel. -/
def dropBearer (token : String) : Option String :=
  if "Bearer ".data.isPrefixOf token.data then some (token.drop 7) else none

/-- `fn is_valid` (main.rs lines 51-58): strip the fixed `Bearer ` prefix,
then compare the remainder with the secret by string equality; no prefix
means invalid. -/
def isValid (token valid : String) : Bool :=
  match dropBearer token with
  | some x => x == valid
  | none => false

/-- Rocket request-guard outcome for `BearerToken`, specialised to the two
constructors `from_request` produces (`Forward` never occurs). -/
inductive GuardOutcome where
  | success (token : String)
  | failure (status : Nat)
  deriving DecidableEq, Repr

/-- `BearerToken::from_request` (main.rs lines 48-65): no `authorization`
header, or a header failing `is_valid`, yields `Failure((Status::BadRequest, ()))`
(status 400); a valid header yields the token. -/
def bearerFromRequest (authHeader : Option String) (secret : String) : GuardOutcome :=
  match authHeader with
  | none => .failure 400
  | some token => if isValid token secret then .success token else .failure 400

/-- `l as i64` on a `u64` value `l` (main.rs line 122): two's-complement
reinterpretation of the low 64 bits. -/
def u64AsI64 (l : Nat) : Int :=
  if l % 2 ^ 64 < 2 ^ 63 then ((l % 2 ^ 64 : Nat) : Int)
  else ((l % 2 ^ 64 : Nat) : Int) - 2 ^ 64

/-- `http::HeaderValue` byte is visible ASCII (the `to_str` criterion):
32..=126 or horizontal tab. -/
def isVisibleAscii (b : Nat) : Bool :=
  (32 ≤ b && b < 127) || b == 9

/-- `HeaderValue::to_str` (reqwest re-export of the `http` crate): succeeds
with the decoded string exactly when every byte is visible ASCII. -/
def headerToStr (bytes : List Nat) : Option String :=
  if bytes.all isVisibleAscii then some (String.mk (bytes.map Char.ofNat))
  else none

/-- The observable parts of a successful `reqwest::Response`: HTTP status,
`content_length()` (a `u64` when present) and the raw bytes of the
`content-type` header when present. -/
structure FetchResponse where
  status : Nat
  contentLength : Option Nat
  contentTypeBytes : Option (List Nat)
  deriving DecidableEq, Repr

/-- Outcome of `reqwest::get(&request.source).await` (main.rs line 98). -/
inductive FetchResult where
  | transportError
  | ok (r : FetchResponse)
  deriving DecidableEq, Repr

/-- Oracle for the external effects one request performs: the fetch
outcome, whether `put_object` succeeds, and the string
`Utc::now().to_rfc3339()` returns at upload construction. -/
structure World where
  fetchResult : FetchResult
  uploadOk : Bool
  nowRfc3339 : String
  deriving DecidableEq, Repr

/-- `rusoto_s3::PutObjectRequest` restricted to the fields the handler sets
(main.rs lines 117-128); every other field keeps its `default()` (unset). -/
structure PutObjectRequest where
  bucket : String
  key : String
  hasBody : Bool
  acl : Option String
  contentLength : Option Int
  contentType : Option String
  cacheControl : Option String
  metadata : Option (List (String × String))
  deriving DecidableEq, Repr

/-- Outbound network effects of one request, in issue order. -/
inductive Effect where
  | fetchGet (source : String)
  | putObject (p : PutObjectRequest)
  deriving DecidableEq, Repr

/-- `content_type` extraction (main.rs lines 108-112): pass a present
header through `to_str`; `Some(Ok(s))` keeps it, `Some(Err(_))` and `None`
both yield `None`. -/
def extractContentType (contentTypeBytes : Option (List Nat)) : Option String :=
  match contentTypeBytes.map headerToStr with
  | some (some s) => some s
  | some none => none
  | none => none

/-- The `PutObjectRequest` the handler constructs after a successful fetch
(main.rs lines 117-128). -/
def buildPut (req : ArchiveRequest) (s : CommonState) (resp : FetchResponse)
    (nowRfc3339 : String) : PutObjectRequest :=
  { bucket := s.bucketName
    key := req.suffix
    hasBody := true
    acl := some "public-read"
    contentLength := resp.contentLength.map u64AsI64
    contentType := extractContentType resp.contentTypeBytes
    cacheControl := some "private, max-age=604800"
    metadata := some [("source", req.source), ("fetched-at", nowRfc3339)] }

/-- `fn archive` (main.rs lines 96-144), after the guards have passed:
fetch, check status 200, build and issue the PUT, then resolve
`public_url.join("/{bucket}/{suffix}")`.  Returns the handler result
paired with the outbound effects in order. -/
def archive (req : ArchiveRequest) (s : CommonState) (w : World) :
    Except ArchiveError ArchiveResult × List Effect :=
  match w.fetchResult with
  | .transportError => (.error .ContentFetchFailed, [.fetchGet req.source])
  | .ok resp =>
    if resp.status ≠ 200 then
      (.error .ContentFetchFailed, [.fetchGet req.source])
    else
      let put := buildPut req s resp w.nowRfc3339
      let effs := [.fetchGet req.source, .putObject put]
      if !w.uploadOk then
        (.error .ContentUploadFailed, effs)
      else
        match s.publicUrl.joinAbsPath ("/" ++ s.bucketName ++ "/" ++ req.suffix) with
        | none => (.error .InvalidConfiguration, effs)
        | some u => (.ok { location := u.render }, effs)

/-- An HTTP response as the route produces it: status plus optional JSON
body (`none` for the bodyless guard failure). -/
structure RouteResult where
  status : Nat
  body : Option String
  deriving DecidableEq, Repr

/-- The full route: Rocket evaluates the `BearerToken` guard before the
handler body runs; a guard `Failure` short-circuits with its status and no
handler body, performing no effect.  On success the handler result is
serialized: `Ok` as 200 JSON, `ArchiveFailure` as 400 JSON
(main.rs lines 68-82, 96-144). -/
def handleArchiveRoute (authHeader : Option String) (req : ArchiveRequest)
    (s : CommonState) (w : World) : RouteResult × List Effect :=
  match bearerFromRequest authHeader s.bearerToken with
  | .failure st => ({ status := st, body := none }, [])
  | .success _ =>
    match archive req s w with
    | (.ok r, effs) => ({ status := 200, body := some (archiveResultJson r) }, effs)
    | (.error e, effs) => ({ status := 400, body := some (errorInfoJson e) }, effs)

/-- `struct Config` (main.rs lines 146-152). -/
structure Config where
  bucketName : String
  bearerToken : String
  publicUrl : String
  endpoint : String
  deriving DecidableEq, Repr

/-- Outcome of `figment.extract::<Config>()` at startup. -/
inductive FigmentResult where
  | ok (c : Config)
  | extractError
  deriving DecidableEq, Repr

/-- Whether the process begins serving: `serving` carries the managed
state, `failedFast` means the ignite fairing returned `Err(rocket)` and
`main` exited before `launch` (main.rs lines 161-191). -/
inductive StartupResult where
  | serving (s : CommonState)
  | failedFast
  deriving DecidableEq, Repr

/-- `main`'s `load_app_config` fairing (main.rs lines 164-187): failure of
config extraction, or of `Url::parse(&config.public_url)` (an external
call, passed as an oracle), aborts ignition; otherwise the process serves
with the constructed `CommonState`. -/
def startup (figment : FigmentResult) (parseUrl : String → Option Url) :
    StartupResult :=
  match figment with
  | .extractError => .failedFast
  | .ok c =>
    match parseUrl c.publicUrl with
    | none => .failedFast
    | some u =>
      .serving { bucketName := c.bucketName, bearerToken := c.bearerToken, publicUrl := u }

/-! Concrete fixtures used by counterexamples and witnesses. -/

/-- A 200 fetch response with no content-length and no content-type. -/
def okResp : FetchResponse :=
  { status := 200, contentLength := none, contentTypeBytes := none }

/-- A 404 fetch response. -/
def resp404 : FetchResponse :=
  { status := 404, contentLength := none, contentTypeBytes := none }

/-- A world where fetch returns 200 and the upload succeeds. -/
def okWorld : World :=
  { fetchResult := .ok okResp, uploadOk := true,
    nowRfc3339 := "2024-05-01T12:00:00+00:00" }

/-- A world where fetch returns 404. -/
def fetch404World : World :=
  { fetchResult := .ok resp404, uploadOk := true,
    nowRfc3339 := "2024-05-01T12:00:00+00:00" }

/-- A world where fetch returns 200 but the store PUT fails. -/
def uploadFailWorld : World :=
  { fetchResult := .ok okResp, uploadOk := false,
    nowRfc3339 := "2024-05-01T12:00:00+00:00" }

/-- Base URL `https://example.com/` (empty path). -/
def plainBase : Url :=
  { scheme := "https", authority := "example.com", path := "/", cannotBeABase := false }

/-- Base URL `https://example.com/cdn` (non-empty path). -/
def cdnBase : Url :=
  { scheme := "https", authority := "example.com", path := "/cdn", cannotBeABase := false }

/-- Service state with bucket `b`, secret `s3cr3t` and the empty-path base. -/
def plainState : CommonState :=
  { bucketName := "b", bearerToken := "s3cr3t", publicUrl := plainBase }

/-- Service state with bucket `b`, secret `s3cr3t` and the `/cdn` base. -/
def cdnState : CommonState :=
  { bucketName := "b", bearerToken := "s3cr3t", publicUrl := cdnBase }

/-- A request for suffix `s`. -/
def demoReq : ArchiveRequest :=
  { source := "http://origin.example/f.png", suffix := "s", public := true }

/-- C1 (counterexample): with configured public base URL
`https://example.com/cdn` — a base URL with a non-empty path — bucket `b`
and suffix `s`, a successful request returns location
`https://example.com/b/s`: `Url::join` with the absolute-path reference
`/b/s` replaces the base path, whereas the claimed string
`{public_base_url}/{bucket}/{suffix}` is `https://example.com/cdn/b/s`. -/
theorem c1_counterexample :
    (archive demoReq cdnState okWorld).1 =
      .ok { location := "https://example.com/b/s" } ∧
    cdnState.publicUrl.render ++ "/" ++ cdnState.bucketName ++ "/" ++ demoReq.suffix =
      "https://example.com/cdn/b/s" ∧
    "https://example.com/b/s" ≠ "https://example.com/cdn/b/s" :=
  ⟨rfl, rfl, by decide⟩

/-- C1 (amended): for every successful archive request whose bucket and
suffix are plain path pieces (alphanumerics, `-`, `_` — needing no percent
encoding and no dot-segment normalization, the fragment on which the join
model is faithful to `Url::join`), the returned location is
`{scheme}://{authority}/{bucket}/{suffix}` built from the configured
public base URL's scheme and authority: the join replaces the base URL's
path with `/{bucket}/{suffix}`, so the location equals
`{public_base_url}/{bucket}/{suffix}` only when the base URL's path is
empty. -/
theorem c1_amended_location (req : ArchiveRequest) (s : CommonState) (w : World)
    (resp : FetchResponse)
    (hfetch : w.fetchResult = .ok resp) (hstatus : resp.status = 200)
    (hupload : w.uploadOk = true)
    (hbase : s.publicUrl.cannotBeABase = false)
    (_hbucket : plainKey s.bucketName = true)
    (_hsuffix : plainKey req.suffix = true) :
    (archive req s w).1 =
      .ok { location := s.publicUrl.scheme ++ "://" ++ s.publicUrl.authority ++
            "/" ++ s.bucketName ++ "/" ++ req.suffix } := by
  simp [archive, hfetch, hstatus, hupload, Url.joinAbsPath, hbase, Url.render,
    String.append_assoc]

/-- C1 (witness): the amended statement at a concrete successful request
(plain bucket `b` and plain suffix `s`) against the empty-path base URL. -/
theorem c1_amended_location_witness :
    (archive demoReq plainState okWorld).1 =
      .ok { location := plainState.publicUrl.scheme ++ "://" ++
            plainState.publicUrl.authority ++ "/" ++ plainState.bucketName ++
            "/" ++ demoReq.suffix } :=
  c1_amended_location demoReq plainState okWorld okResp rfl rfl rfl rfl
    (by decide) (by decide)

/-- C2: when the bearer credential is missing or fails `is_valid` (no
`Bearer ` prefix, or a mismatching secret), the route performs no outbound
effect at all — in particular no GET to `source` — and responds 400 with
no body: the guard runs before the handler body. -/
theorem c2_no_egress_unauthenticated (authHeader : Option String)
    (req : ArchiveRequest) (s : CommonState) (w : World)
    (hauth : authHeader = none ∨
      ∃ t, authHeader = some t ∧ isValid t s.bearerToken = false) :
    handleArchiveRoute authHeader req s w = ({ status := 400, body := none }, []) := by
  rcases hauth with h | ⟨t, ht, hv⟩
  · subst h; rfl
  · subst ht; simp [handleArchiveRoute, bearerFromRequest, hv]

/-- C2 (witness): a concrete mismatching credential yields 400 and an
empty effect list even in a world where fetch and upload would succeed. -/
theorem c2_no_egress_unauthenticated_witness :
    handleArchiveRoute (some "Bearer wrong") demoReq plainState okWorld =
      ({ status := 400, body := none }, []) :=
  c2_no_egress_unauthenticated (some "Bearer wrong") demoReq plainState okWorld
    (Or.inr ⟨"Bearer wrong", rfl, by decide⟩)

/-- C3: the guard strips the fixed `Bearer ` prefix and compares the
remainder to the secret by string equality; a missing header, a header
without the prefix, and a mismatching remainder all produce the identical
outcome `failure 400`, while a matching remainder succeeds. -/
theorem c3_guard_uniformity (secret t u m v : String)
    (hnop : dropBearer t = none)
    (hm : dropBearer u = some m) (hne : m ≠ secret)
    (hv : dropBearer v = some secret) :
    bearerFromRequest none secret = .failure 400 ∧
    bearerFromRequest (some t) secret = .failure 400 ∧
    bearerFromRequest (some u) secret = .failure 400 ∧
    bearerFromRequest (some v) secret = .success v := by
  refine ⟨rfl, ?_, ?_, ?_⟩ <;>
    simp [bearerFromRequest, isValid, hnop, hm, hne, hv]

/-- C3 (witness): the three failure modes at concrete headers are all
`failure 400`, and the matching credential succeeds. -/
theorem c3_guard_uniformity_witness :
    bearerFromRequest none "s3cr3t" = .failure 400 ∧
    bearerFromRequest (some "Token x") "s3cr3t" = .failure 400 ∧
    bearerFromRequest (some "Bearer wrong") "s3cr3t" = .failure 400 ∧
    bearerFromRequest (some "Bearer s3cr3t") "s3cr3t" = .success "Bearer s3cr3t" :=
  c3_guard_uniformity "s3cr3t" "Token x" "Bearer wrong" "wrong" "Bearer s3cr3t"
    (by decide) (by decide) (by decide) (by decide)

/-- C4: for an authenticated request, any transport error and any non-200
status from the GET to `source` yield the 400 response with body
`{"error":"ContentFetchFailed"}`, and a transport-successful 200 response
never yields `ContentFetchFailed`: the fetch stage succeeds exactly on
status 200. -/
theorem c4_fetch_gate (authHeader : Option String) (req : ArchiveRequest)
    (s : CommonState) (w : World) (tok : String)
    (hauth : bearerFromRequest authHeader s.bearerToken = .success tok) :
    ((w.fetchResult = .transportError ∨
        ∃ r, w.fetchResult = .ok r ∧ r.status ≠ 200) →
      (handleArchiveRoute authHeader req s w).1 =
        { status := 400, body := some (errorInfoJson .ContentFetchFailed) }) ∧
    errorInfoJson .ContentFetchFailed = "\x7b\"error\":\"ContentFetchFailed\"\x7d" ∧
    (∀ r, w.fetchResult = .ok r → r.status = 200 →
      (archive req s w).1 ≠ .error .ContentFetchFailed) := by
  refine ⟨?_, rfl, ?_⟩
  · rintro (hf | ⟨r, hf, hs⟩)
    · simp [handleArchiveRoute, hauth, archive, hf]
    · simp [handleArchiveRoute, hauth, archive, hf, hs]
  · intro r hf hs
    cases hu : w.uploadOk <;>
      cases hj : s.publicUrl.joinAbsPath ("/" ++ s.bucketName ++ "/" ++ req.suffix) <;>
      simp [archive, hf, hs, hu, hj]

/-- C4 (witness): a 404 from the source at a concrete authenticated
request produces the 400 `ContentFetchFailed` response. -/
theorem c4_fetch_gate_witness :
    (handleArchiveRoute (some "Bearer s3cr3t") demoReq plainState fetch404World).1 =
      { status := 400, body := some (errorInfoJson .ContentFetchFailed) } :=
  (c4_fetch_gate (some "Bearer s3cr3t") demoReq plainState fetch404World
    "Bearer s3cr3t" (by decide)).1 (Or.inr ⟨resp404, rfl, by decide⟩)

/-- C5: once the fetch returns 200, the request issues exactly one PUT
(after the single GET), targeting the configured bucket at key = suffix,
with ACL fixed to `public-read`, cache-control fixed to
`private, max-age=604800`, and exactly the two metadata entries
`source` (the request's source URL) and `fetched-at` (the
`Utc::now().to_rfc3339()` string captured when the PUT is built). -/
theorem c5_put_shape (req : ArchiveRequest) (s : CommonState) (w : World)
    (resp : FetchResponse)
    (hfetch : w.fetchResult = .ok resp) (hstatus : resp.status = 200) :
    (archive req s w).2 =
      [.fetchGet req.source, .putObject (buildPut req s resp w.nowRfc3339)] ∧
    (buildPut req s resp w.nowRfc3339).bucket = s.bucketName ∧
    (buildPut req s resp w.nowRfc3339).key = req.suffix ∧
    (buildPut req s resp w.nowRfc3339).acl = some "public-read" ∧
    (buildPut req s resp w.nowRfc3339).cacheControl = some "private, max-age=604800" ∧
    (buildPut req s resp w.nowRfc3339).metadata =
      some [("source", req.source), ("fetched-at", w.nowRfc3339)] := by
  refine ⟨?_, rfl, rfl, rfl, rfl, rfl⟩
  cases hu : w.uploadOk <;>
    cases hj : s.publicUrl.joinAbsPath ("/" ++ s.bucketName ++ "/" ++ req.suffix) <;>
    simp [archive, hfetch, hstatus, hu, hj]

/-- C5 (witness): the effect list and PUT fields at a concrete successful
request. -/
theorem c5_put_shape_witness :
    (archive demoReq plainState okWorld).2 =
      [.fetchGet demoReq.source,
       .putObject (buildPut demoReq plainState okResp okWorld.nowRfc3339)] ∧
    (buildPut demoReq plainState okResp okWorld.nowRfc3339).bucket =
      plainState.bucketName ∧
    (buildPut demoReq plainState okResp okWorld.nowRfc3339).key = demoReq.suffix ∧
    (buildPut demoReq plainState okResp okWorld.nowRfc3339).acl =
      some "public-read" ∧
    (buildPut demoReq plainState okResp okWorld.nowRfc3339).cacheControl =
      some "private, max-age=604800" ∧
    (buildPut demoReq plainState okResp okWorld.nowRfc3339).metadata =
      some [("source", demoReq.source), ("fetched-at", okWorld.nowRfc3339)] :=
  c5_put_shape demoReq plainState okWorld okResp rfl rfl

/-- C6: a location is produced iff the fetch (transport-ok and 200), the
upload, and the URL join all succeed, in that order; otherwise the single
reported kind is the first failing stage's: `ContentFetchFailed` for
transport errors and non-200 statuses, `ContentUploadFailed` for a failed
store write, `InvalidConfiguration` for a failed join.  The result type
carries either a location or one error kind, never both. -/
theorem c6_result_iff_stages (req : ArchiveRequest) (s : CommonState) (w : World) :
    ((∃ res, (archive req s w).1 = .ok res) ↔
      ((∃ resp, w.fetchResult = .ok resp ∧ resp.status = 200) ∧
        w.uploadOk = true ∧
        (s.publicUrl.joinAbsPath ("/" ++ s.bucketName ++ "/" ++ req.suffix)).isSome)) ∧
    (w.fetchResult = .transportError →
      (archive req s w).1 = .error .ContentFetchFailed) ∧
    (∀ resp, w.fetchResult = .ok resp → resp.status ≠ 200 →
      (archive req s w).1 = .error .ContentFetchFailed) ∧
    (∀ resp, w.fetchResult = .ok resp → resp.status = 200 → w.uploadOk = false →
      (archive req s w).1 = .error .ContentUploadFailed) ∧
    (∀ resp, w.fetchResult = .ok resp → resp.status = 200 → w.uploadOk = true →
      s.publicUrl.joinAbsPath ("/" ++ s.bucketName ++ "/" ++ req.suffix) = none →
      (archive req s w).1 = .error .InvalidConfiguration) := by
  obtain ⟨fr, up, now⟩ := w
  cases fr with
  | transportError => simp [archive]
  | ok resp =>
    by_cases hs : resp.status = 200
    · cases up <;>
        cases hj : s.publicUrl.joinAbsPath ("/" ++ s.bucketName ++ "/" ++ req.suffix) <;>
        simp [archive, hs, hj]
    · simp [archive, hs]

/-- C6 (witness): at a concrete request whose store write fails, the
reported kind is `ContentUploadFailed`. -/
theorem c6_result_iff_stages_witness :
    (archive demoReq plainState uploadFailWorld).1 = .error .ContentUploadFailed :=
  (c6_result_iff_stages demoReq plainState uploadFailWorld).2.2.2.1 okResp rfl rfl rfl

/-- C7: two requests identical except for the `public` boolean produce the
same response and the same effect list — in particular the same PUT with
its `public-read` ACL; the handler never reads the field. -/
theorem c7_public_ignored (authHeader : Option String) (src sfx : String)
    (b b' : Bool) (s : CommonState) (w : World) :
    handleArchiveRoute authHeader { source := src, suffix := sfx, public := b } s w =
    handleArchiveRoute authHeader { source := src, suffix := sfx, public := b' } s w :=
  rfl

/-- A config whose `public_url` string will fail `Url::parse`. -/
def badUrlConfig : Config :=
  { bucketName := "b", bearerToken := "s3cr3t", publicUrl := "not a url",
    endpoint := "http://store.example" }

/-- A 200 response whose content-type header bytes are not visible ASCII. -/
def badCTResp : FetchResponse :=
  { status := 200, contentLength := none, contentTypeBytes := some [200, 105] }

/-- A 200 response with content-type header `image/png`. -/
def pngCTResp : FetchResponse :=
  { status := 200, contentLength := none,
    contentTypeBytes := some [105, 109, 97, 103, 101, 47, 112, 110, 103] }

/-- C8: if config extraction from the environment fails, or the configured
public base URL does not parse, the ignite fairing aborts and the process
never serves. -/
theorem c8_fail_fast (figment : FigmentResult) (parseUrl : String → Option Url)
    (h : figment = .extractError ∨
      ∃ c, figment = .ok c ∧ parseUrl c.publicUrl = none) :
    startup figment parseUrl = .failedFast := by
  rcases h with h | ⟨c, hc, hp⟩
  · subst h; rfl
  · subst hc; simp [startup, hp]

/-- C8 (witness): a config whose public URL fails to parse never serves. -/
theorem c8_fail_fast_witness :
    startup (.ok badUrlConfig) (fun _ => none) = .failedFast :=
  c8_fail_fast (.ok badUrlConfig) (fun _ => none) (Or.inr ⟨badUrlConfig, rfl, rfl⟩)

/-- C9: a present content-type header whose bytes are not all visible
ASCII leaves the PUT's content-type unset (no error is raised), while a
valid header value is passed through decoded. -/
theorem c9_content_type (req : ArchiveRequest) (s : CommonState)
    (resp : FetchResponse) (now : String) :
    (∀ bs, resp.contentTypeBytes = some bs → bs.all isVisibleAscii = false →
      (buildPut req s resp now).contentType = none) ∧
    (∀ bs, resp.contentTypeBytes = some bs → bs.all isVisibleAscii = true →
      (buildPut req s resp now).contentType =
        some (String.mk (bs.map Char.ofNat))) := by
  constructor <;> intro bs hbs hv <;>
    simp [buildPut, extractContentType, hbs, headerToStr, hv]

/-- C9 (witness): a non-visible-ASCII header byte (200) leaves the
content-type unset; the bytes of `image/png` pass through as
`image/png`. -/
theorem c9_content_type_witness :
    (buildPut demoReq plainState badCTResp okWorld.nowRfc3339).contentType = none ∧
    (buildPut demoReq plainState pngCTResp okWorld.nowRfc3339).contentType =
      some "image/png" := by
  constructor
  · exact (c9_content_type demoReq plainState badCTResp okWorld.nowRfc3339).1
      [200, 105] rfl (by decide)
  · have h := (c9_content_type demoReq plainState pngCTResp okWorld.nowRfc3339).2
      [105, 109, 97, 103, 101, 47, 112, 110, 103] rfl (by decide)
    rw [h]; decide

/-- C10: `content_length.map(|l| l as i64)` reinterprets the observed
`u64` in two's complement: values up to `2^63 - 1` are forwarded exactly,
larger values are forwarded as the negative value `l - 2^64`; the result
is what the PUT carries. -/
theorem c10_content_length_cast (l : Nat) (hl : l < 2 ^ 64) :
    (l ≤ 2 ^ 63 - 1 → u64AsI64 l = (l : Int)) ∧
    (2 ^ 63 - 1 < l → u64AsI64 l = (l : Int) - 2 ^ 64 ∧ u64AsI64 l < 0) ∧
    (∀ req s resp now, resp.contentLength = some l →
      (buildPut req s resp now).contentLength = some (u64AsI64 l)) := by
  have hmod : l % 2 ^ 64 = l := Nat.mod_eq_of_lt hl
  refine ⟨?_, ?_, ?_⟩
  · intro hle
    simp only [u64AsI64, hmod]
    rw [if_pos (by omega)]
  · intro hgt
    simp only [u64AsI64, hmod]
    rw [if_neg (by omega)]
    exact ⟨rfl, by omega⟩
  · intro req s resp now hcl
    simp [buildPut, hcl]

/-- C10 (witness): 42 is forwarded as 42, and `2^63` is forwarded as the
negative value `2^63 - 2^64`. -/
theorem c10_content_length_cast_witness :
    u64AsI64 42 = (42 : Int) ∧
    u64AsI64 9223372036854775808 = (9223372036854775808 : Int) - 2 ^ 64 ∧
    u64AsI64 9223372036854775808 < 0 := by
  have h1 := (c10_content_length_cast 42 (by norm_num)).1 (by norm_num)
  have h2 := (c10_content_length_cast 9223372036854775808 (by norm_num)).2.1
    (by norm_num)
  exact ⟨h1, h2.1, h2.2⟩

end ContentArchiver
